import Mathlib

/-!
Shallow embedding of the monetary/value normalization and validation
pipeline of `core/utils.py` (invoice manager).  Python strings are Lean
`String`s (operated on through their character lists), Python numeric
values are exact rationals, and fallible operations (`float(...)`)
return `Option`.  The inputs the claims range over are ASCII, so the
regex classes `\d`, `\D` and `\s` are modelled by their ASCII meaning.
-/

namespace NF

/-- ASCII digit test: the characters the regex class `\d` matches on the
inputs this module handles. -/
def isDig (c : Char) : Bool := decide (48 ≤ c.toNat ∧ c.toNat ≤ 57)

/-- Characters kept by the cleaning step `re.sub(r"[^\d,.]", "", s)`
(utils.py line 76 and line 29): digits, comma and period. -/
def isMoedaChar (c : Char) : Bool := isDig c || c == ',' || c == '.'

/-- ASCII whitespace: what `str.strip` removes and `\s` matches on the
inputs this module handles. -/
def isSpacePy (c : Char) : Bool :=
  c == ' ' || c == '\t' || c == '\n' || c == '\r' || c == '\x0b' || c == '\x0c'

/-- Python `str.strip()`: drop whitespace from both ends. -/
def pyStrip (cs : List Char) : List Char :=
  ((cs.dropWhile isSpacePy).reverse.dropWhile isSpacePy).reverse

/-- Numeric value of a digit string, most significant digit first. -/
def digitsToNat (cs : List Char) : Nat :=
  cs.foldl (fun a c => a * 10 + (c.toNat - 48)) 0

/-- Python `str.split(sep)` for a one-character separator: the empty
string yields `[""]`, separators at either end yield empty segments. -/
def pySplit (sep : Char) : List Char → List (List Char)
  | [] => [[]]
  | c :: cs =>
    if c = sep then [] :: pySplit sep cs
    else
      match pySplit sep cs with
      | [] => [[c]]
      | p :: ps => (c :: p) :: ps

/-- Value of a digit/period literal as an exact decimal: mantissa and
number of fractional digits, so the value is `m / 10 ^ e`.  Helper for
`pyFloat`, whose guard rules out the junk cases. -/
def dotValue (cs : List Char) : ℕ × ℕ :=
  match pySplit '.' cs with
  | [i] => (digitsToNat i, 0)
  | [i, f] => (digitsToNat i * 10 ^ f.length + digitsToNat f, f.length)
  | _ => (0, 0)

/-- The rational value of a `dotValue` mantissa/exponent pair. -/
def decValue (p : ℕ × ℕ) : ℚ := (p.1 : ℚ) / (10 : ℚ) ^ p.2

/-- Python `float(s)` restricted to the strings this module can feed it:
after cleaning, every argument consists of digits, periods and commas
only.  `float` accepts such a string iff it has at least one digit and
at most one period (`"5."`, `".5"`, `"12"` are accepted; `""`, `"."`,
`"1.2.3"` and anything containing a comma raise `ValueError`, modelled
as `none`).  The accepted value is returned as an exact
mantissa/exponent pair. -/
def pyFloat (cs : List Char) : Option (ℕ × ℕ) :=
  if cs.all (fun c => isDig c || c == '.') && cs.any isDig &&
      decide (cs.count '.' ≤ 1) then
    some (dotValue cs)
  else none

/-- Round the fraction `n / d` (with `d > 0`) to the nearest integer,
ties to the even integer — the rounding Python `round` uses.  `n / d` in
integer E-division is the floor since `d` is positive, and the fractional
remainder `r = n/d - f` compares to one half by comparing `2*(n - f*d)`
with `d`.  Numeric values are modelled as exact decimals. -/
def roundPair (n d : ℤ) : ℤ :=
  let f := n / d
  let r2 := 2 * (n - f * d)
  if r2 < d then f
  else if d < r2 then f + 1
  else if f % 2 = 0 then f else f + 1

/-- Python `round(x, 2)` of the value `m / 10 ^ e`, in integer cents. -/
def roundCents (p : ℕ × ℕ) : ℤ := roundPair (100 * (p.1 : ℤ)) ((10 : ℤ) ^ p.2)

/-- Python `str.replace(",", ".")`: swap every comma to a period. -/
def commaToDot (cs : List Char) : List Char :=
  cs.map fun c => if c = ',' then '.' else c

/-- The branch analysis of `converter_para_decimal` (utils.py lines
82-107) on the cleaned string: which literal is handed to `float`.
`none` models a `ValueError` escaping from `float`. -/
def converterCore (valorLimpo : List Char) : Option (ℕ × ℕ) :=
  if valorLimpo.contains ',' && valorLimpo.contains '.' then
    -- formato 1.234,56: ponto é milhar, vírgula é decimal
    match pySplit ',' valorLimpo with
    | [inteiro, decimal] =>
        pyFloat (inteiro.filter (fun c => c ≠ '.') ++ '.' :: decimal)
    | _ =>
        -- formato inválido, tenta melhor esforço
        pyFloat (commaToDot (valorLimpo.filter (fun c => c ≠ '.')))
  else if valorLimpo.contains ',' then
    pyFloat (commaToDot valorLimpo)
  else if valorLimpo.contains '.' then
    if 2 < (pySplit '.' valorLimpo).length then
      pyFloat (valorLimpo.filter (fun c => c ≠ '.'))
    else
      pyFloat valorLimpo
  else
    pyFloat valorLimpo

/-- The integer-cents view of `converter_para_decimal`: strip, clean,
disambiguate separators, `float`, round to two places; any `ValueError`
is caught and turned into zero.  Kept in ℤ so concrete runs reduce in
the kernel. -/
def converter_cents (valor : String) : ℤ :=
  let valorLimpo := (pyStrip valor.data).filter isMoedaChar
  if valorLimpo.isEmpty then 0
  else
    match converterCore valorLimpo with
    | some v => roundCents v
    | none => 0

/-- `converter_para_decimal` (utils.py lines 65-112) on a string
argument: the returned amount is the rounded cents over one hundred. -/
def converter_para_decimal (valor : String) : ℚ :=
  (converter_cents valor : ℚ) / 100

/-- `converter_para_decimal` on a numeric argument (the `isinstance`
branch, utils.py lines 70-71): `round(float(valor), 2)`, with no sign or
magnitude processing — `valor * 100 = (100 * num) / den`. -/
def converter_para_decimal_num (valor : ℚ) : ℚ :=
  (roundPair (100 * valor.num) (valor.den : ℤ) : ℚ) / 100

/-- Grouping helper on a reversed digit list: after every three digits
place a period if digits remain. -/
def groupAux : List Char → List Char
  | d1 :: d2 :: d3 :: d4 :: rest => d1 :: d2 :: d3 :: '.' :: groupAux (d4 :: rest)
  | l => l

/-- Thousands grouping: the net effect of `f"{n:,}"` followed by the
comma-to-period swap of utils.py lines 50 and 53-57 — a period every
three digits counting from the right. -/
def groupDots (cs : List Char) : List Char := (groupAux cs.reverse).reverse

/-- Decimal digit string of a natural number. -/
def natDigits (n : ℕ) : List Char := Nat.toDigits 10 n

/-- Two-digit rendering of the cents part of `f"{v:,.2f}"`. -/
def twoDigits (n : ℕ) : List Char :=
  if n < 10 then '0' :: natDigits n else natDigits n

/-- `formatar_moeda` (utils.py lines 17-62) on a string argument.  The
f-string grouping plus the `X`-swap dance (lines 50-57) nets to: period
thousands separators and a comma before exactly two decimal digits; we
render that directly.  On the mantissa/exponent pair `(m, e)` of the
parsed value, `valor_float.is_integer()` is divisibility of `m` by
`10 ^ e`, `int(valor_float)` is `m / 10 ^ e`, and the two decimals of
`f"{v:,.2f}"` come from half-even rounding to cents. -/
def formatar_moeda (valor : String) (com_simbolo : Bool) : String :=
  let zero := if com_simbolo then "R$ 0,00" else "0,00"
  let valorStr := (pyStrip valor.data).filter isMoedaChar
  if valorStr.isEmpty then zero
  else
    let vs :=
      if valorStr.contains ',' then
        if valorStr.contains '.' then commaToDot (valorStr.filter (fun c => c ≠ '.'))
        else commaToDot valorStr
      else valorStr
    match pyFloat vs with
    | none => zero
    | some v =>
      let formatado :=
        if v.1 % 10 ^ v.2 = 0 then
          groupDots (natDigits (v.1 / 10 ^ v.2)) ++ [',', '0', '0']
        else
          let k := (roundCents v).toNat
          groupDots (natDigits (k / 100)) ++ ',' :: twoDigits (k % 100)
      if com_simbolo then String.mk ('R' :: '$' :: ' ' :: formatado)
      else String.mk formatado

/-- `formatar_valor_digitacao` (utils.py lines 176-181): on a truthy
(non-empty) string, `re.sub(r"[^\d,.]", "", valor)`; the empty string is
returned unchanged. -/
def formatar_valor_digitacao (valor : String) : String :=
  if valor ≠ "" then String.mk (valor.data.filter isMoedaChar) else valor

/-- `aplicar_formatacao_valor_final` (utils.py lines 184-188): on a
truthy (non-empty) string delegates to `formatar_moeda` without the
symbol; the empty string is returned unchanged. -/
def aplicar_formatacao_valor_final (valor : String) : String :=
  if valor ≠ "" then formatar_moeda valor false else valor

/-- CPython strptime field `%d` — its pattern `3[01]|[12]\d|0[1-9]|[1-9]`
(one or two digits denoting 1..31), with the numeric value. -/
def dayField (cs : List Char) : Option ℕ :=
  match cs with
  | [c] => if isDig c && c ≠ '0' then some (c.toNat - 48) else none
  | [c1, c2] =>
    if (c1 = '3' ∧ (c2 = '0' ∨ c2 = '1')) ∨ ((c1 = '1' ∨ c1 = '2') ∧ isDig c2 = true) ∨
        (c1 = '0' ∧ isDig c2 = true ∧ c2 ≠ '0') then
      some ((c1.toNat - 48) * 10 + (c2.toNat - 48))
    else none
  | _ => none

/-- CPython strptime field `%m` — its pattern `1[0-2]|0[1-9]|[1-9]`
(one or two digits denoting 1..12), with the numeric value. -/
def monField (cs : List Char) : Option ℕ :=
  match cs with
  | [c] => if isDig c && c ≠ '0' then some (c.toNat - 48) else none
  | [c1, c2] =>
    if (c1 = '1' ∧ (c2 = '0' ∨ c2 = '1' ∨ c2 = '2')) ∨
        (c1 = '0' ∧ isDig c2 = true ∧ c2 ≠ '0') then
      some ((c1.toNat - 48) * 10 + (c2.toNat - 48))
    else none
  | _ => none

/-- CPython strptime field `%Y` — its pattern `\d\d\d\d`, exactly four
digits, with the numeric value. -/
def yearField (cs : List Char) : Option ℕ :=
  match cs with
  | [c1, c2, c3, c4] =>
    if isDig c1 && isDig c2 && isDig c3 && isDig c4 then
      some (digitsToNat [c1, c2, c3, c4])
    else none
  | _ => none

/-- Gregorian leap year as `datetime` computes it. -/
def isLeap (y : ℕ) : Bool := decide (y % 4 = 0 ∧ (y % 100 ≠ 0 ∨ y % 400 = 0))

/-- Days in a month as `datetime` computes them. -/
def daysInMonth (y m : ℕ) : ℕ :=
  if m = 2 then (if isLeap y then 29 else 28)
  else if m = 4 ∨ m = 6 ∨ m = 9 ∨ m = 11 then 30
  else 31

/-- `validar_data` (utils.py lines 137-151):
`datetime.strptime(data_str, "%d/%m/%Y")` succeeds iff the string splits
on `/` into exactly three fields matching `%d`, `%m`, `%Y` (none of
those sub-patterns can consume a `/`, and the match must consume the
whole string), and `datetime(year, month, day)` accepts the values:
`MINYEAR = 1 ≤ year` (`≤ 9999` is implied by the four digits) and the
day fits the month. -/
def validar_data (s : String) : Bool :=
  match pySplit '/' s.data with
  | [d, m, y] =>
    match dayField d, monField m, yearField y with
    | some dv, some mv, some yv => decide (1 ≤ yv ∧ dv ≤ daysInMonth yv mv)
    | _, _, _ => false
  | _ => false

/-- Python `str.isdigit`: non-empty and every character a digit. -/
def pyIsdigit (s : String) : Bool := !s.data.isEmpty && s.data.all isDig

/-- `validar_numero_nota` (utils.py lines 196-198): Python truthiness
guard, then `numero.isdigit()`. -/
def validar_numero_nota (numero : String) : Bool :=
  if numero ≠ "" then pyIsdigit numero else false

/-- Regular expressions as languages, for embedding the `re` patterns
used by the validators.  Matching is decided by Brzozowski derivatives,
which is language-equivalent to Python backtracking for these
fully-anchored patterns. -/
inductive RE where
  | emp : RE
  | eps : RE
  | tok : (Char → Bool) → RE
  | cat : RE → RE → RE
  | alt : RE → RE → RE
  | star : RE → RE

def RE.nullable : RE → Bool
  | .emp => false
  | .eps => true
  | .tok _ => false
  | .cat r s => r.nullable && s.nullable
  | .alt r s => r.nullable || s.nullable
  | .star _ => true

def RE.deriv : RE → Char → RE
  | .emp, _ => .emp
  | .eps, _ => .emp
  | .tok p, c => if p c then .eps else .emp
  | .cat r s, c =>
    if r.nullable then .alt (.cat (r.deriv c) s) (s.deriv c)
    else .cat (r.deriv c) s
  | .alt r s, c => .alt (r.deriv c) (s.deriv c)
  | .star r, c => .cat (r.deriv c) (.star r)

/-- Full-string regex match by iterated derivatives. -/
def RE.accepts (r : RE) (cs : List Char) : Bool :=
  (cs.foldl RE.deriv r).nullable

def RE.ch (c : Char) : RE := .tok (fun x => x = c)

def RE.opt (r : RE) : RE := .alt r .eps

def reDigit : RE := .tok isDig

/-- ASCII whitespace, the class `\s`. -/
def reWs : RE :=
  .tok (fun c => c = ' ' ∨ c = '\t' ∨ c = '\n' ∨ c = '\r' ∨ c = '\x0b' ∨ c = '\x0c')

/-- The class `[,.]`. -/
def reSep : RE := .tok (fun c => c = ',' ∨ c = '.')

/-- `\d{1,3}` -/
def reD13 : RE := .cat reDigit (.opt (.cat reDigit (.opt reDigit)))

/-- `(?:\.?\d{3})*` -/
def reGroups : RE :=
  .star (.cat (RE.opt (RE.ch '.')) (.cat reDigit (.cat reDigit reDigit)))

/-- `(?:[,.]\d{1,2})?` — capturing or not is irrelevant to the language. -/
def reDec : RE := RE.opt (.cat reSep (.cat reDigit (.opt reDigit)))

/-- First alternative of the `validar_moeda` pattern:
`\d{1,3}(?:\.?\d{3})*(?:[,.]\d{1,2})?`. -/
def reAltA : RE := .cat reD13 (.cat reGroups reDec)

/-- Second alternative: `\d+([,.]\d{1,2})?`. -/
def reAltB : RE := .cat reDigit (.cat (.star reDigit) reDec)

/-- The full `validar_moeda` pattern
`^R?\$?\s*(\d{1,3}(?:\.?\d{3})*(?:[,.]\d{1,2})?|\d+([,.]\d{1,2})?)$`.
`re.match` anchors at the start and the final `$` matches at the end or
just before one trailing newline. -/
def moedaRE : RE :=
  .cat (RE.opt (RE.ch 'R')) (.cat (RE.opt (RE.ch '$'))
    (.cat (.star reWs) (.cat (.alt reAltA reAltB) (RE.opt (RE.ch '\n')))))

/-- `validar_moeda` (utils.py lines 115-129): falsy guard, then the
pattern against the stripped string. -/
def validar_moeda (valor : String) : Bool :=
  if valor = "" then false
  else moedaRE.accepts (pyStrip valor.data)

/-- `validar_formulario_nota` (utils.py lines 270-296).  The
`try/except` around `converter_para_decimal` is dead in the model since
the converter never raises. -/
def validar_formulario_nota (data numero cliente valor : String) :
    Bool × String :=
  if data = "" ∨ numero = "" ∨ cliente = "" ∨ valor = "" then
    (false, "Preencha todos os campos obrigatórios!")
  else if !validar_data data then
    (false, "Data inválida! Use o formato DD/MM/AAAA.")
  else if !validar_numero_nota numero then
    (false, "Número da nota deve conter apenas dígitos!")
  else if !validar_moeda valor then
    (false, "Valor inválido! Use formato como 1234,56 ou 1.234,56.")
  else if converter_para_decimal valor ≤ 0 then
    (false, "Valor deve ser maior que zero!")
  else (true, "")

/-- `formatar_telefone` (utils.py lines 210-222): falsy guard; strip
non-digits (`re.sub(r"\D", "", ...)`); re-punctuate only at exactly 11
or 10 digits, otherwise return the input unchanged. -/
def formatar_telefone (telefone : String) : String :=
  if telefone = "" then telefone
  else
    let digits := telefone.data.filter isDig
    if digits.length = 11 then
      String.mk ('(' :: digits.take 2 ++ ')' :: ' ' :: (digits.drop 2).take 5 ++
        '-' :: digits.drop 7)
    else if digits.length = 10 then
      String.mk ('(' :: digits.take 2 ++ ')' :: ' ' :: (digits.drop 2).take 4 ++
        '-' :: digits.drop 6)
    else telefone

/-- `formatar_cnpj` (utils.py lines 243-253): falsy guard; strip
non-digits; re-punctuate only at exactly 14 digits, otherwise return the
input unchanged. -/
def formatar_cnpj (cnpj : String) : String :=
  if cnpj = "" then cnpj
  else
    let digits := cnpj.data.filter isDig
    if digits.length = 14 then
      String.mk (digits.take 2 ++ '.' :: (digits.drop 2).take 3 ++
        '.' :: (digits.drop 5).take 3 ++ '/' :: (digits.drop 8).take 4 ++
        '-' :: digits.drop 12)
    else cnpj

/-- Modelled from the spec: the strict `DD/MM/YYYY` pattern the spec
asserts for `validar_data` — two-digit day and month fields and a
four-digit year field separated by `/`, with a calendar-valid
day/month and a positive year. -/
def specStrictDDMMYYYY (s : String) : Bool :=
  match pySplit '/' s.data with
  | [d, m, y] =>
    decide (d.length = 2 ∧ (∀ c ∈ d, isDig c = true) ∧
      m.length = 2 ∧ (∀ c ∈ m, isDig c = true) ∧
      y.length = 4 ∧ (∀ c ∈ y, isDig c = true) ∧
      1 ≤ digitsToNat y ∧
      1 ≤ digitsToNat m ∧ digitsToNat m ≤ 12 ∧
      1 ≤ digitsToNat d ∧ digitsToNat d ≤ daysInMonth (digitsToNat y) (digitsToNat m))
  | _ => false

/-- Modelled from the spec as amended: like `specStrictDDMMYYYY` but the
day and month fields may have one or two digits, which is what
`strptime`'s `%d` and `%m` accept; still a four-digit year, no
two-digit years, no clamping — the day must fit the month. -/
def dateSpecLenient (s : String) : Bool :=
  match pySplit '/' s.data with
  | [d, m, y] =>
    decide (1 ≤ d.length ∧ d.length ≤ 2 ∧ (∀ c ∈ d, isDig c = true) ∧
      1 ≤ m.length ∧ m.length ≤ 2 ∧ (∀ c ∈ m, isDig c = true) ∧
      y.length = 4 ∧ (∀ c ∈ y, isDig c = true) ∧
      1 ≤ digitsToNat y ∧
      1 ≤ digitsToNat m ∧ digitsToNat m ≤ 12 ∧
      1 ≤ digitsToNat d ∧ digitsToNat d ≤ daysInMonth (digitsToNat y) (digitsToNat m))
  | _ => false

/-! ## Supporting lemmas -/

theorem roundPair_nonneg (n d : ℤ) (hn : 0 ≤ n) (hd : 0 < d) :
    0 ≤ roundPair n d := by
  have h0 : 0 ≤ n / d := Int.ediv_nonneg hn hd.le
  unfold roundPair
  dsimp only
  split_ifs <;> omega

theorem converter_cents_nonneg (s : String) : 0 ≤ converter_cents s := by
  unfold converter_cents
  dsimp only
  split
  · exact le_refl 0
  · split
    · exact roundPair_nonneg _ _ (by positivity) (by positivity)
    · exact le_refl 0

/-! ## Claims -/

/-- C1, counterexample: on the source code a single period followed by
three digits is parsed as a decimal point, so `parse("1.234")` is `1.23`,
not `1234.00` as the claim states. -/
theorem claim1_counterexample : converter_para_decimal "1.234" ≠ 1234 := by
  have h : converter_cents "1.234" = 123 := by decide
  unfold converter_para_decimal
  rw [h]
  norm_num

/-- C1 (amended): the parser resolves separators by the code's rules;
with exactly one period and no comma the period is a decimal point
regardless of how many digits follow, so `parse("1.234") = 1.23`, while
`parse("1.234,56") = 1234.56`, `parse("1234,56") = 1234.56`,
`parse("1234.56") = 1234.56` and `parse("1234") = 1234.00` hold as
claimed. -/
theorem claim1_separator_disambiguation :
    converter_para_decimal "1.234,56" = 123456 / 100 ∧
    converter_para_decimal "1234,56" = 123456 / 100 ∧
    converter_para_decimal "1234.56" = 123456 / 100 ∧
    converter_para_decimal "1.234" = 123 / 100 ∧
    converter_para_decimal "1234" = 1234 := by
  refine ⟨?_, ?_, ?_, ?_, ?_⟩ <;> unfold converter_para_decimal
  · rw [show converter_cents "1.234,56" = 123456 from by decide]; norm_num
  · rw [show converter_cents "1234,56" = 123456 from by decide]; norm_num
  · rw [show converter_cents "1234.56" = 123456 from by decide]; norm_num
  · rw [show converter_cents "1.234" = 123 from by decide]; norm_num
  · rw [show converter_cents "1234" = 123400 from by decide]; norm_num

/-- C2: round-trip idempotence on the claim's amounts.  The display
strings fed back to the parser are produced by `formatar_moeda` applied
to `str(a)` for `a` in `{0, 0.01, 9.99, 1000, 1234567.89}` — the
`repr` strings of those numbers are exactly "0", "0.01", "9.99", "1000"
and "1234567.89". -/
theorem claim2_roundtrip :
    converter_para_decimal (formatar_moeda "0" false) = 0 ∧
    converter_para_decimal (formatar_moeda "0.01" false) = 1 / 100 ∧
    converter_para_decimal (formatar_moeda "9.99" false) = 999 / 100 ∧
    converter_para_decimal (formatar_moeda "1000" false) = 1000 ∧
    converter_para_decimal (formatar_moeda "1234567.89" false) = 123456789 / 100 := by
  refine ⟨?_, ?_, ?_, ?_, ?_⟩ <;> unfold converter_para_decimal
  · rw [show converter_cents (formatar_moeda "0" false) = 0 from by decide]; norm_num
  · rw [show converter_cents (formatar_moeda "0.01" false) = 1 from by decide]; norm_num
  · rw [show converter_cents (formatar_moeda "9.99" false) = 999 from by decide]; norm_num
  · rw [show converter_cents (formatar_moeda "1000" false) = 100000 from by decide]; norm_num
  · rw [show converter_cents (formatar_moeda "1234567.89" false) = 123456789 from by decide]
    norm_num

/-- C3: the parser is a total function (the model never throws), returns
exactly `0.00` on the enumerated malformed inputs — the empty string,
`"abc"`, `"R$"` and `"None"` (what `str(None)` yields for a
None-equivalent argument) — and more generally on every input whose
cleaned form is empty. -/
theorem claim3_malformed_safety :
    converter_para_decimal "" = 0 ∧
    converter_para_decimal "abc" = 0 ∧
    converter_para_decimal "R$" = 0 ∧
    converter_para_decimal "None" = 0 ∧
    ∀ s : String, ((pyStrip s.data).filter isMoedaChar).isEmpty = true →
      converter_para_decimal s = 0 := by
  refine ⟨?_, ?_, ?_, ?_, ?_⟩
  · unfold converter_para_decimal
    rw [show converter_cents "" = 0 from by decide]; norm_num
  · unfold converter_para_decimal
    rw [show converter_cents "abc" = 0 from by decide]; norm_num
  · unfold converter_para_decimal
    rw [show converter_cents "R$" = 0 from by decide]; norm_num
  · unfold converter_para_decimal
    rw [show converter_cents "None" = 0 from by decide]; norm_num
  · intro s h
    unfold converter_para_decimal converter_cents
    simp [h]

/-- C3, witness. -/
theorem claim3_witness : converter_para_decimal "!!" = 0 :=
  claim3_malformed_safety.2.2.2.2 "!!" (by decide)

/-- C5, counterexample: a negative numeric argument is merely rounded,
so the result can be negative — `converter_para_decimal(-5)` is `-5`,
not a non-negative amount. -/
theorem claim5_counterexample :
    converter_para_decimal_num (-5) = -5 ∧ ((-5 : ℚ) < 0) := by
  constructor
  · unfold converter_para_decimal_num
    rw [show roundPair (100 * (-5 : ℚ).num) (((-5 : ℚ).den : ℤ)) = -500 from by decide]
    norm_num
  · norm_num

/-- C5 (amended): every string input yields a non-negative amount that
is a whole number of cents; a numeric input is rounded to two places as
well but keeps its sign, so a negative number stays negative. -/
theorem claim5_nonneg_two_places :
    (∀ s : String, ∃ k : ℕ, converter_para_decimal s = (k : ℚ) / 100) ∧
    (∀ q : ℚ, ∃ k : ℤ, converter_para_decimal_num q = (k : ℚ) / 100) := by
  constructor
  · intro s
    refine ⟨(converter_cents s).toNat, ?_⟩
    unfold converter_para_decimal
    congr 1
    exact_mod_cast (Int.toNat_of_nonneg (converter_cents_nonneg s)).symm
  · intro q
    exact ⟨roundPair (100 * q.num) (q.den : ℤ), rfl⟩

/-- C6, counterexample: the typing-time formatter does not regroup — the
input `"1234"` stays `"1234"`, it is not displayed as `"1.234"` as the
claim states. -/
theorem claim6_counterexample : formatar_valor_digitacao "1234" ≠ "1.234" := by
  decide

/-- C6 (amended): for every raw field text, with or without a comma, the
typing-time formatter only removes the characters that are not digits,
commas or periods; no thousands regrouping happens, so `"1234"` is
returned as `"1234"`. -/
theorem claim6_typing_formatter :
    (∀ v : String, (formatar_valor_digitacao v).data = v.data.filter isMoedaChar) ∧
    formatar_valor_digitacao "1234" = "1234" := by
  constructor
  · intro v
    unfold formatar_valor_digitacao
    by_cases h : v = ""
    · subst h; decide
    · simp [h]
  · decide

/-- C7, counterexample: on the empty string the finalization formatter
returns the empty string unchanged while `formatar_moeda` returns
`"0,00"`, so the two disagree there. -/
theorem claim7_counterexample :
    aplicar_formatacao_valor_final "" ≠ formatar_moeda "" false := by
  decide

/-- C7 (amended): for every non-empty input the finalization formatter
equals the currency formatter with the symbol flag off; the empty string
is returned unchanged. -/
theorem claim7_final_format_delegates :
    (∀ v : String, v ≠ "" → aplicar_formatacao_valor_final v = formatar_moeda v false) ∧
    aplicar_formatacao_valor_final "" = "" := by
  constructor
  · intro v h
    simp [aplicar_formatacao_valor_final, h]
  · decide

/-- C7, witness. -/
theorem claim7_witness :
    aplicar_formatacao_valor_final "1" = formatar_moeda "1" false :=
  claim7_final_format_delegates.1 "1" (by decide)

/-- C9: the phone and CNPJ formatters re-punctuate exactly when the
cleaned digit count matches an expected length (11 or 10 for phones, 14
for CNPJ) and otherwise return the input unchanged; in particular
`formatar_telefone("119") = "119"` and
`formatar_telefone("11987654321") = "(11) 98765-4321"`. -/
theorem claim9_digit_count_gating :
    (∀ t : String, (t.data.filter isDig).length = 11 →
      formatar_telefone t = String.mk ('(' :: (t.data.filter isDig).take 2 ++
        ')' :: ' ' :: ((t.data.filter isDig).drop 2).take 5 ++
        '-' :: (t.data.filter isDig).drop 7)) ∧
    (∀ t : String, (t.data.filter isDig).length = 10 →
      formatar_telefone t = String.mk ('(' :: (t.data.filter isDig).take 2 ++
        ')' :: ' ' :: ((t.data.filter isDig).drop 2).take 4 ++
        '-' :: (t.data.filter isDig).drop 6)) ∧
    (∀ t : String, (t.data.filter isDig).length ≠ 11 →
      (t.data.filter isDig).length ≠ 10 → formatar_telefone t = t) ∧
    (∀ t : String, (t.data.filter isDig).length = 14 →
      formatar_cnpj t = String.mk ((t.data.filter isDig).take 2 ++
        '.' :: ((t.data.filter isDig).drop 2).take 3 ++
        '.' :: ((t.data.filter isDig).drop 5).take 3 ++
        '/' :: ((t.data.filter isDig).drop 8).take 4 ++
        '-' :: (t.data.filter isDig).drop 12)) ∧
    (∀ t : String, (t.data.filter isDig).length ≠ 14 → formatar_cnpj t = t) ∧
    formatar_telefone "119" = "119" ∧
    formatar_telefone "11987654321" = "(11) 98765-4321" := by
  refine ⟨?_, ?_, ?_, ?_, ?_, by decide, by decide⟩
  · intro t h
    have ht : t ≠ "" := by
      intro e; subst e; exact absurd h (by decide)
    unfold formatar_telefone
    simp [ht, h]
  · intro t h
    have ht : t ≠ "" := by
      intro e; subst e; exact absurd h (by decide)
    unfold formatar_telefone
    simp [ht, h]
  · intro t h1 h2
    by_cases ht : t = ""
    · subst ht; decide
    · unfold formatar_telefone
      simp [ht, h1, h2]
  · intro t h
    have ht : t ≠ "" := by
      intro e; subst e; exact absurd h (by decide)
    unfold formatar_cnpj
    simp [ht, h]
  · intro t h
    by_cases ht : t = ""
    · subst ht; decide
    · unfold formatar_cnpj
      simp [ht, h]

/-- C9, witness. -/
theorem claim9_witness :
    formatar_telefone "11987654321" = String.mk ('(' ::
      ("11987654321".data.filter isDig).take 2 ++ ')' :: ' ' ::
      (("11987654321".data.filter isDig).drop 2).take 5 ++
      '-' :: ("11987654321".data.filter isDig).drop 7) :=
  claim9_digit_count_gating.1 "11987654321" (by decide)

theorem pySplit_ne_nil (sep : Char) (l : List Char) : pySplit sep l ≠ [] := by
  induction l with
  | nil => simp [pySplit]
  | cons c cs ih =>
    unfold pySplit
    by_cases h : c = sep
    · simp [h]
    · simp only [h, if_false]
      rcases hp : pySplit sep cs with _ | ⟨p, ps⟩
      · exact absurd hp ih
      · simp

theorem pySplit_length (sep : Char) (l : List Char) :
    (pySplit sep l).length = l.count sep + 1 := by
  induction l with
  | nil => simp [pySplit]
  | cons c cs ih =>
    unfold pySplit
    by_cases h : c = sep
    · subst h
      simp [List.count_cons_self, ih]
    · rcases hp : pySplit sep cs with _ | ⟨p, ps⟩
      · exact absurd hp (pySplit_ne_nil sep cs)
      · rw [hp] at ih
        simp only [h, if_false, hp]
        rw [List.count_cons_of_ne (fun e => h e.symm)]
        simp at ih ⊢
        omega

theorem count_dot_commaToDot (l : List Char) :
    (commaToDot l).count '.' = l.count ',' + l.count '.' := by
  induction l with
  | nil => rfl
  | cons c cs ih =>
    unfold commaToDot at ih ⊢
    by_cases h : c = ','
    · subst h
      simp [List.count_cons, ih]
      omega
    · by_cases h2 : c = '.'
      · subst h2
        simp [List.count_cons, ih]
        omega
      · simp [List.count_cons, ih, h, h2, Ne.symm h, Ne.symm h2]

theorem count_comma_filter_ne_dot (l : List Char) :
    (l.filter (fun c => c ≠ '.')).count ',' = l.count ',' := by
  induction l with
  | nil => rfl
  | cons c cs ih =>
    by_cases h : c = '.'
    · subst h
      rw [List.filter_cons_of_neg (by simp)]
      rw [List.count_cons_of_ne (by decide)]
      exact ih
    · rw [List.filter_cons_of_pos (by simpa using h)]
      rw [List.count_cons, List.count_cons, ih]

theorem count_dot_filter_ne_dot (l : List Char) :
    (l.filter (fun c => c ≠ '.')).count '.' = 0 := by
  rw [List.count_eq_zero]
  intro h
  have := List.of_mem_filter h
  simp at this

theorem pyFloat_none_of_two_dots (cs : List Char) (h : 2 ≤ cs.count '.') :
    pyFloat cs = none := by
  unfold pyFloat
  rw [if_neg]
  intro hc
  simp only [Bool.and_eq_true, decide_eq_true_eq] at hc
  omega

/-- C10: whenever the cleaned input has at least one period and two or
more commas, the fallback path (strip all periods, then turn every comma
into a period) builds a literal with at least two periods, `float`
rejects it, and the handler returns exactly `0.00`. -/
theorem claim10_multi_comma_fallback :
    ∀ s : String, 1 ≤ ((pyStrip s.data).filter isMoedaChar).count '.' →
      2 ≤ ((pyStrip s.data).filter isMoedaChar).count ',' →
      converter_para_decimal s = 0 := by
  intro s h1 h2
  have hcore : converterCore ((pyStrip s.data).filter isMoedaChar) = none := by
    set l := (pyStrip s.data).filter isMoedaChar with hl
    have hdot : l.contains '.' = true := by
      have : '.' ∈ l := List.count_pos_iff.mp (by omega)
      exact List.elem_iff.mpr this
    have hcomma : l.contains ',' = true := by
      have : ',' ∈ l := List.count_pos_iff.mp (by omega)
      exact List.elem_iff.mpr this
    have hlen : (pySplit ',' l).length = l.count ',' + 1 := pySplit_length ',' l
    unfold converterCore
    rw [hcomma, hdot]
    simp only [Bool.and_self, if_true]
    rcases hp : pySplit ',' l with _ | ⟨a, _ | ⟨b, _ | ⟨c, rest⟩⟩⟩
    · exact absurd hp (pySplit_ne_nil ',' l)
    · rw [hp] at hlen; simp at hlen; omega
    · rw [hp] at hlen; simp at hlen; omega
    · apply pyFloat_none_of_two_dots
      rw [count_dot_commaToDot, count_comma_filter_ne_dot, count_dot_filter_ne_dot]
      omega
  have hcents : converter_cents s = 0 := by
    unfold converter_cents
    simp [hcore]
  unfold converter_para_decimal
  rw [hcents]
  norm_num

/-- C10, witness. -/
theorem claim10_witness : converter_para_decimal "1.2,3,4" = 0 :=
  claim10_multi_comma_fallback "1.2,3,4" (by decide) (by decide)

/-- C4: the invoice form validator is a fixed ordered short-circuiting
pipeline: it returns `(true, "")` exactly when every check passes, and
otherwise the first failing check in the order all-fields-non-empty,
date, number shape, currency shape, positive value determines the
message; including the two concrete scenarios of the claim. -/
theorem claim4_form_pipeline :
    (∀ d n c v : String,
      validar_formulario_nota d n c v = (true, "") ↔
        (d ≠ "" ∧ n ≠ "" ∧ c ≠ "" ∧ v ≠ "" ∧ validar_data d = true ∧
         validar_numero_nota n = true ∧ validar_moeda v = true ∧
         0 < converter_para_decimal v)) ∧
    (∀ d n c v : String, (d = "" ∨ n = "" ∨ c = "" ∨ v = "") →
      validar_formulario_nota d n c v =
        (false, "Preencha todos os campos obrigatórios!")) ∧
    (∀ d n c v : String, d ≠ "" → n ≠ "" → c ≠ "" → v ≠ "" →
      validar_data d = false →
      validar_formulario_nota d n c v =
        (false, "Data inválida! Use o formato DD/MM/AAAA.")) ∧
    (∀ d n c v : String, d ≠ "" → n ≠ "" → c ≠ "" → v ≠ "" →
      validar_data d = true → validar_numero_nota n = false →
      validar_formulario_nota d n c v =
        (false, "Número da nota deve conter apenas dígitos!")) ∧
    (∀ d n c v : String, d ≠ "" → n ≠ "" → c ≠ "" → v ≠ "" →
      validar_data d = true → validar_numero_nota n = true →
      validar_moeda v = false →
      validar_formulario_nota d n c v =
        (false, "Valor inválido! Use formato como 1234,56 ou 1.234,56.")) ∧
    (∀ d n c v : String, d ≠ "" → n ≠ "" → c ≠ "" → v ≠ "" →
      validar_data d = true → validar_numero_nota n = true →
      validar_moeda v = true → converter_para_decimal v ≤ 0 →
      validar_formulario_nota d n c v =
        (false, "Valor deve ser maior que zero!")) ∧
    validar_formulario_nota "" "123" "Acme" "100,00" =
      (false, "Preencha todos os campos obrigatórios!") ∧
    validar_formulario_nota "01/01/2024" "1" "Acme" "0,00" =
      (false, "Valor deve ser maior que zero!") := by
  refine ⟨?_, ?_, ?_, ?_, ?_, ?_, ?_, ?_⟩
  · intro d n c v
    unfold validar_formulario_nota
    split_ifs with h1 h2 h3 h4 h5
    · refine iff_of_false (by simp) ?_
      rintro ⟨hd, hn, hc, hv, -⟩
      rcases h1 with e | e | e | e <;> contradiction
    · refine iff_of_false (by simp) ?_
      rintro ⟨-, -, -, -, hd, -⟩
      simp [hd] at h2
    · refine iff_of_false (by simp) ?_
      rintro ⟨-, -, -, -, -, hn, -⟩
      simp [hn] at h3
    · refine iff_of_false (by simp) ?_
      rintro ⟨-, -, -, -, -, -, hv, -⟩
      simp [hv] at h4
    · refine iff_of_false (by simp) ?_
      rintro ⟨-, -, -, -, -, -, -, hpos⟩
      exact absurd h5 (not_le.mpr hpos)
    · push_neg at h1
      simp at h2 h3 h4
      exact iff_of_true rfl
        ⟨h1.1, h1.2.1, h1.2.2.1, h1.2.2.2, h2, h3, h4, not_le.mp h5⟩
  · intro d n c v h
    unfold validar_formulario_nota
    rw [if_pos h]
  · intro d n c v hd hn hc hv h
    unfold validar_formulario_nota
    rw [if_neg (by rintro (e | e | e | e) <;> contradiction), if_pos (by simp [h])]
  · intro d n c v hd hn hc hv h1 h2
    unfold validar_formulario_nota
    rw [if_neg (by rintro (e | e | e | e) <;> contradiction),
      if_neg (by simp [h1]), if_pos (by simp [h2])]
  · intro d n c v hd hn hc hv h1 h2 h3
    unfold validar_formulario_nota
    rw [if_neg (by rintro (e | e | e | e) <;> contradiction),
      if_neg (by simp [h1]), if_neg (by simp [h2]), if_pos (by simp [h3])]
  · intro d n c v hd hn hc hv h1 h2 h3 h4
    unfold validar_formulario_nota
    rw [if_neg (by rintro (e | e | e | e) <;> contradiction),
      if_neg (by simp [h1]), if_neg (by simp [h2]), if_neg (by simp [h3]),
      if_pos h4]
  · unfold validar_formulario_nota
    rw [if_pos (Or.inl rfl)]
  · unfold validar_formulario_nota
    rw [if_neg (by rintro (e | e | e | e) <;> simp_all),
      if_neg (by decide), if_neg (by decide), if_neg (by decide),
      if_pos (by unfold converter_para_decimal
                 rw [show converter_cents "0,00" = 0 from by decide]
                 norm_num)]

/-- C4, witness. -/
theorem claim4_witness :
    validar_formulario_nota "01/01/2024" "1" "Acme" "100,00" = (true, "") :=
  (claim4_form_pipeline.1 "01/01/2024" "1" "Acme" "100,00").mpr
    ⟨by decide, by decide, by decide, by decide, by decide, by decide, by decide,
      by unfold converter_para_decimal
         rw [show converter_cents "100,00" = 10000 from by decide]
         norm_num⟩

theorem char_eq_iff_toNat (a b : Char) : a = b ↔ a.toNat = b.toNat :=
  ⟨fun h => h ▸ rfl, fun h => Char.ext (UInt32.ext h)⟩

theorem toNat_char0 : ('0' : Char).toNat = 48 := rfl

theorem toNat_char1 : ('1' : Char).toNat = 49 := rfl

theorem toNat_char2 : ('2' : Char).toNat = 50 := rfl

theorem toNat_char3 : ('3' : Char).toNat = 51 := rfl

theorem isDig_iff (c : Char) : isDig c = true ↔ 48 ≤ c.toNat ∧ c.toNat ≤ 57 := by
  simp [isDig]

theorem digitsToNat_one (c : Char) : digitsToNat [c] = c.toNat - 48 := by
  simp [digitsToNat]

theorem digitsToNat_two (c1 c2 : Char) :
    digitsToNat [c1, c2] = (c1.toNat - 48) * 10 + (c2.toNat - 48) := by
  simp [digitsToNat]

theorem daysInMonth_le_31 (y m : ℕ) : daysInMonth y m ≤ 31 := by
  unfold daysInMonth
  split_ifs <;> omega

theorem dayField_iff (d : List Char) (v : ℕ) :
    dayField d = some v ↔
      (1 ≤ d.length ∧ d.length ≤ 2 ∧ (∀ c ∈ d, isDig c = true) ∧
       v = digitsToNat d ∧ 1 ≤ v ∧ v ≤ 31) := by
  rcases d with _ | ⟨c1, _ | ⟨c2, _ | ⟨c3, t⟩⟩⟩
  · simp [dayField]
  · simp only [dayField, digitsToNat_one, List.length_cons, List.length_nil,
      List.mem_singleton, forall_eq]
    split_ifs with hc <;>
      simp only [Bool.and_eq_true, decide_eq_true_eq, not_and_or, Ne,
        char_eq_iff_toNat, toNat_char0, isDig_iff, Option.some.injEq,
        reduceCtorEq, false_iff, not_and, not_le] at hc ⊢ <;>
      omega
  · simp only [dayField, digitsToNat_two, List.length_cons, List.length_nil,
      List.forall_mem_cons, List.forall_mem_singleton]
    split_ifs with hc <;>
      simp [Ne, char_eq_iff_toNat, toNat_char0, toNat_char1, toNat_char2,
        toNat_char3, isDig_iff] at hc ⊢ <;>
      try omega
  · rw [show dayField (c1 :: c2 :: c3 :: t) = none from rfl]
    constructor
    · rintro ⟨⟩
    · rintro ⟨-, h2, -⟩
      simp at h2

theorem monField_iff (m : List Char) (v : ℕ) :
    monField m = some v ↔
      (1 ≤ m.length ∧ m.length ≤ 2 ∧ (∀ c ∈ m, isDig c = true) ∧
       v = digitsToNat m ∧ 1 ≤ v ∧ v ≤ 12) := by
  rcases m with _ | ⟨c1, _ | ⟨c2, _ | ⟨c3, t⟩⟩⟩
  · simp [monField]
  · simp only [monField, digitsToNat_one, List.length_cons, List.length_nil,
      List.mem_singleton, forall_eq]
    split_ifs with hc <;>
      simp only [Bool.and_eq_true, decide_eq_true_eq, not_and_or, Ne,
        char_eq_iff_toNat, toNat_char0, isDig_iff, Option.some.injEq,
        reduceCtorEq, false_iff, not_and, not_le] at hc ⊢ <;>
      omega
  · simp only [monField, digitsToNat_two, List.length_cons, List.length_nil,
      List.forall_mem_cons, List.forall_mem_singleton]
    split_ifs with hc <;>
      simp [Ne, char_eq_iff_toNat, toNat_char0, toNat_char1, toNat_char2,
        isDig_iff] at hc ⊢ <;>
      try omega
  · rw [show monField (c1 :: c2 :: c3 :: t) = none from rfl]
    constructor
    · rintro ⟨⟩
    · rintro ⟨-, h2, -⟩
      simp at h2


theorem yearField_iff (y : List Char) (v : ℕ) :
    yearField y = some v ↔
      (y.length = 4 ∧ (∀ c ∈ y, isDig c = true) ∧ v = digitsToNat y) := by
  rcases y with _ | ⟨c1, _ | ⟨c2, _ | ⟨c3, _ | ⟨c4, _ | ⟨c5, t⟩⟩⟩⟩⟩
  · simp [yearField]
  · simp [yearField]
  · simp [yearField]
  · simp [yearField]
  · simp only [yearField]
    split_ifs with hc <;> simp only [Bool.and_eq_true] at hc
    · simp only [Option.some.injEq]
      constructor
      · rintro rfl
        refine ⟨by simp, ?_, rfl⟩
        intro c hcmem
        simp only [List.mem_cons, List.not_mem_nil, or_false] at hcmem
        rcases hcmem with rfl | rfl | rfl | rfl
        · exact hc.1.1.1
        · exact hc.1.1.2
        · exact hc.1.2
        · exact hc.2
      · rintro ⟨-, -, h3⟩
        rw [h3]
    · constructor
      · rintro ⟨⟩
      · rintro ⟨-, h2, -⟩
        exact absurd ⟨⟨⟨h2 c1 (by simp), h2 c2 (by simp)⟩, h2 c3 (by simp)⟩,
          h2 c4 (by simp)⟩ hc
  · rw [show yearField (c1 :: c2 :: c3 :: c4 :: c5 :: t) = none from rfl]
    constructor
    · rintro ⟨⟩
    · rintro ⟨h1, -⟩
      simp at h1

/-- C8, counterexample: `strptime` accepts one-digit day and month
fields, so `validar_data("1/1/2024")` is true although the strict
`DD/MM/YYYY` pattern of the claim rejects that string. -/
theorem claim8_counterexample :
    validar_data "1/1/2024" = true ∧ specStrictDDMMYYYY "1/1/2024" = false := by
  decide

/-- C8 (amended): `validar_data(s)` is true iff `s` splits on `/` into
day, month and year fields where day and month have one or two digits
(the leniency of `strptime`), the year has exactly four digits (no
two-digit years), the values are calendar-valid with no clamping, and
the year is positive; in particular "31/02/2024", "2024-01-01" and
"01/01/99" are rejected. -/
theorem claim8_date_validation :
    validar_data "31/02/2024" = false ∧
    validar_data "2024-01-01" = false ∧
    validar_data "01/01/99" = false ∧
    validar_data "1/1/2024" = true ∧
    ∀ s : String, validar_data s = true ↔ dateSpecLenient s = true := by
  refine ⟨by decide, by decide, by decide, by decide, ?_⟩
  intro s
  unfold validar_data dateSpecLenient
  rcases hp : pySplit '/' s.data with _ | ⟨d, _ | ⟨m, _ | ⟨y, _ | ⟨e, t⟩⟩⟩⟩
  · simp
  · simp
  · simp
  · rcases hd : dayField d with _ | dv
    · simp only [hd, decide_eq_true_eq]
      constructor
      · rintro ⟨⟩
      · rintro ⟨h1, h2, h3, -, -, -, -, -, -, -, -, h12, h13⟩
        have : dayField d = some (digitsToNat d) :=
          (dayField_iff d (digitsToNat d)).mpr
            ⟨h1, h2, h3, rfl, h12, le_trans h13 (daysInMonth_le_31 _ _)⟩
        rw [hd] at this
        cases this
    · rcases hm : monField m with _ | mv
      · simp only [hd, hm, decide_eq_true_eq]
        constructor
        · rintro ⟨⟩
        · rintro ⟨-, -, -, h4, h5, h6, -, -, -, h10, h11, -, -⟩
          have : monField m = some (digitsToNat m) :=
            (monField_iff m (digitsToNat m)).mpr ⟨h4, h5, h6, rfl, h10, h11⟩
          rw [hm] at this
          cases this
      · rcases hy : yearField y with _ | yv
        · simp only [hd, hm, hy, decide_eq_true_eq]
          constructor
          · rintro ⟨⟩
          · rintro ⟨-, -, -, -, -, -, h7, h8, -, -, -, -, -⟩
            have : yearField y = some (digitsToNat y) :=
              (yearField_iff y (digitsToNat y)).mpr ⟨h7, h8, rfl⟩
            rw [hy] at this
            cases this
        · simp only [hd, hm, hy, decide_eq_true_eq]
          obtain ⟨hd1, hd2, hd3, hdv, hd5, hd6⟩ := (dayField_iff d dv).mp hd
          obtain ⟨hm1, hm2, hm3, hmv, hm5, hm6⟩ := (monField_iff m mv).mp hm
          obtain ⟨hy1, hy2, hyv⟩ := (yearField_iff y yv).mp hy
          subst hdv
          subst hmv
          subst hyv
          constructor
          · rintro ⟨h1, h2⟩
            exact ⟨hd1, hd2, hd3, hm1, hm2, hm3, hy1, hy2, h1, hm5, hm6, hd5, h2⟩
          · rintro ⟨-, -, -, -, -, -, -, -, h1, -, -, -, h2⟩
            exact ⟨h1, h2⟩
  · simp

/-- C8, witness. -/
theorem claim8_witness :
    validar_data "29/02/2024" = true ↔ dateSpecLenient "29/02/2024" = true :=
  claim8_date_validation.2.2.2.2 "29/02/2024"

end NF
